import Mathlib

/-!
# Verification of the Product-Analytics-Dashboard catalog query pipeline

Shallow embedding of the repository's catalog logic:

* `src/unnamed/part_001` — `ProductService` (`getProducts`, `getProductById`,
  `searchProducts`, `applyFilters`, `applySort`, `applyPagination`);
* `src/src/services/repositories/ProductRepository.ts` — `findById` guard;
* `src/src/lib/httpClient.ts` — `FetchHttpClient.get` error translation;
* `src/src/features/products/components/ProductList.tsx` — `useProductFilters`
  (the in-browser filter/sort/paginate counterpart);
* `src/src/app/products/page.tsx` — `ProductsContent` initial data;
* `src/src/services/__tests__/ProductService.test.ts` — `MockProductRepository`
  (the repository used by the test suite, the one catalog-backed `findById`).

Modelling conventions: TypeScript numbers that hold prices or ratings become
`ℚ`; identifiers, page numbers and page sizes become `ℤ` (they are integers in
every observed use, and the guards compare them to integer bounds); optional
fields become `Option`; the `Result` sum type of `src/src/models/Common.ts`
becomes an inductive with the same two variants.  `String.prototype.localeCompare`
is environment-dependent, so every sorting definition is parametrised by an
arbitrary comparison function `lcmp : String → String → Int`; theorems that
need consistency of that comparator take the properties ECMA-402 guarantees
(sign antisymmetry and transitivity) as hypotheses.  JavaScript
`Array.prototype.sort` is required to be stable by ECMA-262, so it is embedded
as `List.mergeSort`.
-/

/-- Model of `Product.rating` from `src/src/models/Product.ts`: `rate` (decimal) and
`count` (non-negative integer). -/
structure ProductRating where
  rate : ℚ
  count : ℕ
deriving DecidableEq, Repr

/-- Model of `Product` from `src/src/models/Product.ts`. -/
structure Product where
  id : ℤ
  title : String
  price : ℚ
  description : String
  category : String
  image : String
  rating : ProductRating
deriving DecidableEq, Repr

/-- Model of `ProductFilters` from `src/src/models/Product.ts`: all fields optional. -/
structure ProductFilters where
  category : Option String := none
  search : Option String := none
  minPrice : Option ℚ := none
  maxPrice : Option ℚ := none
deriving DecidableEq, Repr

/-- Model of `SortField` from `src/src/models/Product.ts`. -/
inductive SortField where
  | title
  | price
  | rating
deriving DecidableEq, Repr

/-- Model of `SortOrder` from `src/src/models/Product.ts`. -/
inductive SortOrder where
  | asc
  | desc
deriving DecidableEq, Repr

/-- Model of `ProductSort` from `src/src/models/Product.ts`. -/
structure ProductSort where
  field : SortField
  order : SortOrder
deriving DecidableEq, Repr

/-- Model of `Pagination` from `src/src/models/Product.ts` (page number and limit). -/
structure Pagination where
  page : ℤ
  limit : ℤ
deriving DecidableEq, Repr

/-- Model of `PaginatedResult<T>` from `src/src/models/Product.ts`. -/
structure PaginatedResult (α : Type) where
  data : List α
  total : ℕ
  page : ℤ
  limit : ℤ
  totalPages : ℤ
deriving DecidableEq, Repr

/-- Model of `ApiError` from `src/src/models/Common.ts`. -/
structure ApiError where
  message : String
  code : Option String := none
  statusCode : Option ℤ := none
deriving DecidableEq, Repr

/-- Model of `Result<T> = Success<T> | Failure` from `src/src/models/Common.ts`. -/
inductive Result (α : Type) where
  | success (data : α)
  | failure (error : ApiError)
deriving DecidableEq, Repr

/-- JavaScript string truthiness for an optional string field: `undefined`
and `""` are falsy, every other string is truthy. -/
def strTruthy : Option String → Bool
  | none => false
  | some s => s != ""

/-- Embedding of `String.prototype.toLowerCase`, written as the character-wise
`Char.toLower` (the ASCII fragment of the Unicode default case conversion —
every string literal appearing in a concrete theorem below is ASCII). -/
def jsToLower (s : String) : String :=
  String.mk (s.data.map Char.toLower)

/-- Embedding of `String.prototype.trim`, written as dropping leading and trailing
whitespace characters. -/
def jsTrim (s : String) : String :=
  String.mk (((s.data.dropWhile Char.isWhitespace).reverse.dropWhile
    Char.isWhitespace).reverse)

/-- Embedding of `String.prototype.includes`: substring containment, embedded as infix of
the character lists. -/
def jsIncludes (s sub : String) : Bool :=
  decide (sub.data <:+: s.data)

/-- The index resolution of `Array.prototype.slice` per ECMA-262: a negative
index counts from the end of the array, and both indices are clipped to the
array bounds. -/
def jsSliceIndex (len : ℕ) (i : ℤ) : ℕ :=
  (if i < 0 then max ((len : ℤ) + i) 0 else min i (len : ℤ)).toNat

/-- Embedding of `Array.prototype.slice(start, end)` per ECMA-262: the elements from the
resolved start index up to (excluding) the resolved end index. -/
def jsSlice {α : Type} (l : List α) (start stop : ℤ) : List α :=
  (l.take (jsSliceIndex l.length stop)).drop (jsSliceIndex l.length start)

/-- The `filters.category` early return in `ProductService.applyFilters`
(src/unnamed/part_001 lines 87-89): `filters.category && product.category !==
filters.category`.  The truthiness test makes an empty-string category inert. -/
def categoryFails (filters : ProductFilters) (product : Product) : Bool :=
  match filters.category with
  | some c => c != "" && product.category != c
  | none => false

/-- The `filters.search` early return in `ProductService.applyFilters`
(src/unnamed/part_001 lines 91-100): lowercased substring match against title
or description; an empty-string search is falsy and therefore inert. -/
def searchFails (filters : ProductFilters) (product : Product) : Bool :=
  match filters.search with
  | some s =>
      s != "" &&
        !(jsIncludes (jsToLower product.title) (jsToLower s) ||
          jsIncludes (jsToLower product.description) (jsToLower s))
  | none => false

/-- The `filters.minPrice` early return in `ProductService.applyFilters`
(src/unnamed/part_001 lines 102-104): `minPrice !== undefined && price < minPrice`. -/
def minPriceFails (filters : ProductFilters) (product : Product) : Bool :=
  match filters.minPrice with
  | some m => decide (product.price < m)
  | none => false

/-- The `filters.maxPrice` early return in `ProductService.applyFilters`
(src/unnamed/part_001 lines 106-108): `maxPrice !== undefined && price > maxPrice`. -/
def maxPriceFails (filters : ProductFilters) (product : Product) : Bool :=
  match filters.maxPrice with
  | some m => decide (m < product.price)
  | none => false

/-- The predicate of `ProductService.applyFilters`: a product passes when none
of the four early returns fires. -/
def filterPred (filters : ProductFilters) (product : Product) : Bool :=
  !categoryFails filters product && !searchFails filters product &&
    !minPriceFails filters product && !maxPriceFails filters product

/-- Embedding of `ProductService.applyFilters` (src/unnamed/part_001 lines 82-112). -/
def applyFilters (products : List Product) (filters : ProductFilters) : List Product :=
  products.filter (filterPred filters)

/-- The per-field comparison of `ProductService.applySort`
(src/unnamed/part_001 lines 120-133): `localeCompare` for titles (abstracted
as `lcmp`), numeric subtraction for price, numeric subtraction for
`rating.rate`.  Only the sign of the value is ever used. -/
def productComparison (lcmp : String → String → ℤ) (field : SortField)
    (a b : Product) : ℚ :=
  match field with
  | .title => (lcmp a.title b.title : ℚ)
  | .price => a.price - b.price
  | .rating => a.rating.rate - b.rating.rate

/-- The full comparator of `ProductService.applySort` (src/unnamed/part_001
line 135): `sort.order === 'asc' ? comparison : -comparison`. -/
def sortComparator (lcmp : String → String → ℤ) (sort : ProductSort)
    (a b : Product) : ℚ :=
  match sort.order with
  | .asc => productComparison lcmp sort.field a b
  | .desc => -productComparison lcmp sort.field a b

/-- Embedding of `ProductService.applySort` (src/unnamed/part_001 lines 114-139).
`Array.prototype.sort` is stable per ECMA-262, hence `List.mergeSort`; the
JavaScript contract "comparator(a,b) <= 0 means a may stay before b" is the
`le` argument. -/
def applySort (lcmp : String → String → ℤ) (products : List Product)
    (sort : ProductSort) : List Product :=
  products.mergeSort (fun a b => decide (sortComparator lcmp sort a b ≤ 0))

/-- Embedding of `ProductService.applyPagination` (src/unnamed/part_001 lines 141-162).
`Math.ceil(total / limit)` is the ceiling of the exact division; JavaScript
evaluates it on floats, embedded here on `ℚ` (for `limit = 0` JavaScript
produces `Infinity`/`NaN`, which has no `ℚ` counterpart — the `ℚ` convention
`x / 0 = 0` stands in, and every claim about pagination assumes `limit ≥ 1`). -/
def applyPagination (products : List Product) (pagination : Pagination) :
    PaginatedResult Product :=
  let total := products.length
  let totalPages : ℤ := ⌈(total : ℚ) / (pagination.limit : ℚ)⌉
  let startIndex := (pagination.page - 1) * pagination.limit
  let endIndex := startIndex + pagination.limit
  { data := jsSlice products startIndex endIndex
    total := total
    page := pagination.page
    limit := pagination.limit
    totalPages := totalPages }

/-- The `if (filters)` step of `ProductService.getProducts`
(src/unnamed/part_001 lines 34-36). -/
def optFilter (products : List Product) : Option ProductFilters → List Product
  | some f => applyFilters products f
  | none => products

/-- The `if (sort)` step of `ProductService.getProducts`
(src/unnamed/part_001 lines 38-40). -/
def optSort (lcmp : String → String → ℤ) (products : List Product) :
    Option ProductSort → List Product
  | some s => applySort lcmp products s
  | none => products

/-- Embedding of `ProductService.getProducts` (src/unnamed/part_001 lines 21-46).  The
repository's `findAll()` outcome is passed in as a value (`findAllResult`);
on failure it is forwarded unchanged, on success the filter, sort and
pagination steps run in order, with `pagination || { page: 1, limit: 20 }`
as the default window. -/
def getProducts (lcmp : String → String → ℤ) (findAllResult : Result (List Product))
    (filters : Option ProductFilters) (sort : Option ProductSort)
    (pagination : Option Pagination) : Result (PaginatedResult Product) :=
  match findAllResult with
  | .failure e => .failure e
  | .success data =>
      let products := data
      let products := optFilter products filters
      let products := optSort lcmp products sort
      let paginationConfig := pagination.getD { page := 1, limit := 20 }
      .success (applyPagination products paginationConfig)

/-- The `PaginatedResult` produced by a successful `getProducts` run:
`getProducts lcmp (.success D) fo so po = .success (queryResult lcmp D fo so po)`
(see `getProducts_success`). -/
def queryResult (lcmp : String → String → ℤ) (D : List Product)
    (filters : Option ProductFilters) (sort : Option ProductSort)
    (pagination : Option Pagination) : PaginatedResult Product :=
  applyPagination (optSort lcmp (optFilter D filters) sort)
    (pagination.getD { page := 1, limit := 20 })

/-- Embedding of `ProductService.getProductById` (src/unnamed/part_001 lines 48-50):
forwards the repository's `findById` result unchanged. -/
def getProductById (findById : ℤ → Result Product) (id : ℤ) : Result Product :=
  findById id

/-- The predicate of `ProductService.searchProducts` (src/unnamed/part_001
lines 72-77): lowercased substring match against title, description or
category. -/
def searchPred (normalizedQuery : String) (product : Product) : Bool :=
  jsIncludes (jsToLower product.title) normalizedQuery ||
    jsIncludes (jsToLower product.description) normalizedQuery ||
    jsIncludes (jsToLower product.category) normalizedQuery

/-- Embedding of `ProductService.searchProducts` (src/unnamed/part_001 lines 56-80):
rejects an empty or all-whitespace query with `INVALID_QUERY` before touching
the repository, otherwise filters the full dataset by
`query.toLowerCase().trim()`. -/
def searchProducts (findAllResult : Result (List Product)) (query : String) :
    Result (List Product) :=
  if query == "" || jsTrim query == "" then
    .failure { message := "Search query cannot be empty", code := some "INVALID_QUERY" }
  else
    match findAllResult with
    | .failure e => .failure e
    | .success data =>
        let normalizedQuery := jsTrim (jsToLower query)
        .success (data.filter (searchPred normalizedQuery))

/-- Embedding of `ProductRepository.findById` (src/src/services/repositories/ProductRepository.ts
lines 21-33): guards `id <= 0` with `INVALID_ID` before calling
`httpClient.get`; the HTTP client is passed in as a function from the request
path to its outcome. -/
def repoFindById (httpGet : String → Result Product) (id : ℤ) : Result Product :=
  if id ≤ 0 then
    .failure { message := "Invalid product ID", code := some "INVALID_ID" }
  else
    httpGet ("/products/" ++ toString id)

/-- The observable pieces of a completed `fetch` response used by
`FetchHttpClient.get`: `ok`, `status`, `statusText`, and the result of
`response.json()` (`none` models a parse failure that throws). -/
structure HttpResponse (α : Type) where
  ok : Bool
  status : ℤ
  statusText : String
  body : Option α

/-- Embedding of `FetchHttpClient.get` (src/src/lib/httpClient.ts lines 11-40) as a
function of the transport outcome: a thrown `fetch` error (`Except.error`)
becomes `FETCH_ERROR`, a non-ok status becomes `HTTP_ERROR` carrying the
status code, a `json()` throw becomes `FETCH_ERROR`, and an ok parse is a
success. -/
def fetchGet {α : Type} (response : Except String (HttpResponse α)) : Result α :=
  match response with
  | .error msg => .failure { message := msg, code := some "FETCH_ERROR" }
  | .ok r =>
      if r.ok then
        match r.body with
        | some data => .success data
        | none => .failure { message := "Unexpected end of JSON input", code := some "FETCH_ERROR" }
      else
        .failure { message := "HTTP Error: " ++ toString r.status ++ " " ++ r.statusText,
                   code := some "HTTP_ERROR", statusCode := some r.status }

/-- Embedding of `MockProductRepository.findById` from the repository's own test suite
(src/src/services/__tests__/ProductService.test.ts lines 50-60): the one
catalog-backed `findById` in the repository, translating an absent
`Array.prototype.find` result into the `NOT_FOUND` error. -/
def mockFindById (catalog : List Product) (id : ℤ) : Result Product :=
  match catalog.find? (fun product => product.id == id) with
  | none => .failure { message := "Product not found", code := some "NOT_FOUND" }
  | some product => .success product

/-- The filter chain of `useProductFilters`
(src/src/features/products/components/ProductList.tsx lines 152-172, repeated
verbatim at lines 209-230): four successive conditional `Array.prototype.filter`
passes over the initial product list. -/
def hookFilterChain (initialProducts : List Product) (filters : ProductFilters) :
    List Product :=
  let products := initialProducts
  let products :=
    match filters.category with
    | some c => if c != "" then products.filter (fun p => p.category == c) else products
    | none => products
  let products :=
    match filters.search with
    | some s =>
        if s != "" then
          let query := jsToLower s
          products.filter (fun p =>
            jsIncludes (jsToLower p.title) query ||
              jsIncludes (jsToLower p.description) query)
        else products
    | none => products
  let products :=
    match filters.minPrice with
    | some m => products.filter (fun p => decide (m ≤ p.price))
    | none => products
  let products :=
    match filters.maxPrice with
    | some m => products.filter (fun p => decide (p.price ≤ m))
    | none => products
  products

/-- The `filteredProducts` memo of `useProductFilters`
(src/src/features/products/components/ProductList.tsx lines 149-197): filter
chain, then a sort whose inline comparator is textually identical to
`ProductService.applySort`'s (hence `sortComparator` is reused), then
`slice(startIndex, startIndex + limit)`. -/
def hookFilteredProducts (lcmp : String → String → ℤ) (initialProducts : List Product)
    (filters : ProductFilters) (sort : ProductSort) (pagination : Pagination) :
    List Product :=
  let products := hookFilterChain initialProducts filters
  let products := products.mergeSort (fun a b => decide (sortComparator lcmp sort a b ≤ 0))
  let startIndex := (pagination.page - 1) * pagination.limit
  jsSlice products startIndex (startIndex + pagination.limit)

/-- The guard of the `totalPages` memo of `useProductFilters`
(src/src/features/products/components/ProductList.tsx lines 203-208): at least
one filter field is truthy (for `minPrice`/`maxPrice`, defined). -/
def hookActiveFilters (filters : ProductFilters) : Bool :=
  strTruthy filters.category || strTruthy filters.search ||
    filters.minPrice.isSome || filters.maxPrice.isSome

/-- The `totalPages` memo of `useProductFilters`
(src/src/features/products/components/ProductList.tsx lines 199-236):
`Math.ceil(count / limit)` where `count` is the filtered count when any filter
field is active and the full count otherwise. -/
def hookTotalPages (initialProducts : List Product) (filters : ProductFilters)
    (pagination : Pagination) : ℤ :=
  let count :=
    if hookActiveFilters filters then (hookFilterChain initialProducts filters).length
    else initialProducts.length
  ⌈(count : ℚ) / (pagination.limit : ℚ)⌉

/-- Embedding of `ProductsContent` (src/src/app/products/page.tsx lines 16-36): calls
`getProducts()` with no arguments and passes `productsResult.data.data` to the
client as `initialProducts` (a failure is thrown; here it is propagated as a
value). -/
def productsContentInitialProducts (lcmp : String → String → ℤ)
    (findAllResult : Result (List Product)) : Result (List Product) :=
  match getProducts lcmp findAllResult none none none with
  | .success r => .success r.data
  | .failure e => .failure e

/-- The four products used by the repository's own test suite and the spec's
concrete scenarios (§8). -/
def specLaptop : Product :=
  { id := 1, title := "Laptop", price := 999, description := "High-performance laptop",
    category := "electronics", image := "https://example.com/laptop.jpg",
    rating := { rate := ⟨9, 2, by decide, by decide⟩, count := 100 } }

def specPhone : Product :=
  { id := 2, title := "Phone", price := 699,
    description := "Smartphone with advanced features", category := "electronics",
    image := "https://example.com/phone.jpg", rating := { rate := ⟨21, 5, by decide, by decide⟩, count := 200 } }

def specTShirt : Product :=
  { id := 3, title := "T-Shirt", price := 29, description := "Cotton t-shirt",
    category := "clothing", image := "https://example.com/tshirt.jpg",
    rating := { rate := 4, count := 50 } }

def specJeans : Product :=
  { id := 4, title := "Jeans", price := 79, description := "Denim jeans",
    category := "clothing", image := "https://example.com/jeans.jpg",
    rating := { rate := ⟨43, 10, by decide, by decide⟩, count := 80 } }

def specDataset : List Product := [specLaptop, specPhone, specTShirt, specJeans]

/-- A comparator standing in for `localeCompare` in concrete witnesses: it
treats all strings as equal, which satisfies the ECMA-402 consistency
requirements. -/
def lcmpZero : String → String → ℤ := fun _ _ => 0

/-- A product whose category mentions "gadget" while its title and
description do not. -/
def cexProduct : Product :=
  { id := 7, title := "Steel Mug", price := 25,
    description := "Keeps drinks hot", category := "gadgets",
    image := "https://example.com/mug.jpg", rating := { rate := 4, count := 12 } }

/-- A filter whose category field is present but holds the empty string. -/
def cexFilter : ProductFilters := { category := some "" }

/-- A plain category filter used by concrete witnesses. -/
def cexFilterClothing : ProductFilters := { category := some "clothing" }

/-! ## Supporting lemmas -/

theorem getProducts_success (lcmp : String → String → ℤ) (D : List Product)
    (fo : Option ProductFilters) (so : Option ProductSort) (po : Option Pagination) :
    getProducts lcmp (.success D) fo so po = .success (queryResult lcmp D fo so po) :=
  rfl

theorem jsSlice_sublist {α : Type} (l : List α) (start stop : ℤ) :
    List.Sublist (jsSlice l start stop) l :=
  ((l.take _).drop_sublist _).trans (l.take_sublist _)

theorem jsSliceIndex_of_len_le (len : ℕ) (i : ℤ) (h0 : 0 ≤ i)
    (h : (len : ℤ) ≤ i) : jsSliceIndex len i = len := by
  unfold jsSliceIndex
  rw [if_neg (by omega)]
  omega

theorem jsSlice_eq_nil_of_le {α : Type} (l : List α) (start stop : ℤ)
    (h0 : 0 ≤ start) (h : (l.length : ℤ) ≤ start) : jsSlice l start stop = [] := by
  rw [jsSlice, jsSliceIndex_of_len_le l.length start h0 h]
  apply List.drop_eq_nil_of_le
  have htake := List.length_take (jsSliceIndex l.length stop) l
  omega

theorem jsSlice_nonneg_take {α : Type} (l : List α) (stop : ℤ) (h : 0 ≤ stop) :
    jsSlice l 0 stop = l.take stop.toNat := by
  rw [jsSlice]
  have h1 : jsSliceIndex l.length 0 = 0 := by
    unfold jsSliceIndex
    rw [if_neg (by omega)]
    omega
  have h2 : jsSliceIndex l.length stop = min stop.toNat l.length := by
    unfold jsSliceIndex
    rw [if_neg (by omega)]
    omega
  rw [h1, h2, List.drop_zero, ← List.take_take, List.take_length]

theorem optSort_length (lcmp : String → String → ℤ) (l : List Product)
    (so : Option ProductSort) : (optSort lcmp l so).length = l.length := by
  cases so with
  | none => rfl
  | some s => exact List.length_mergeSort l

theorem optSort_mem (lcmp : String → String → ℤ) (l : List Product)
    (so : Option ProductSort) (p : Product) : p ∈ optSort lcmp l so ↔ p ∈ l := by
  cases so with
  | none => exact Iff.rfl
  | some s => exact List.mem_mergeSort

/-- The page returned by a successful query is drawn from the filtered list. -/
theorem mem_queryResult_data (lcmp : String → String → ℤ) (D : List Product)
    (fo : Option ProductFilters) (so : Option ProductSort) (po : Option Pagination)
    (p : Product) (hp : p ∈ (queryResult lcmp D fo so po).data) :
    p ∈ optFilter D fo := by
  have h1 : p ∈ optSort lcmp (optFilter D fo) so :=
    (jsSlice_sublist _ _ _).subset hp
  exact (optSort_mem lcmp _ so p).mp h1

theorem mem_optFilter (D : List Product) (fo : Option ProductFilters) (p : Product)
    (hp : p ∈ optFilter D fo) : p ∈ D := by
  cases fo with
  | none => exact hp
  | some f => exact List.mem_of_mem_filter hp

theorem filterPred_of_mem_optFilter (D : List Product) (f : ProductFilters)
    (p : Product) (hp : p ∈ optFilter D (some f)) : filterPred f p = true :=
  List.of_mem_filter hp

theorem categoryFails_elim (f : ProductFilters) (p : Product)
    (h : categoryFails f p = false) (c : String) (hc : f.category = some c)
    (hne : c ≠ "") : p.category = c := by
  rw [categoryFails, hc] at h
  simp only [Bool.and_eq_false_iff, bne_eq_false_iff_eq] at h
  rcases h with h | h
  · exact absurd h hne
  · exact h

theorem searchFails_elim (f : ProductFilters) (p : Product)
    (h : searchFails f p = false) (s : String) (hs : f.search = some s) :
    (jsIncludes (jsToLower p.title) (jsToLower s) ||
      jsIncludes (jsToLower p.description) (jsToLower s)) = true := by
  rw [searchFails, hs] at h
  simp only [Bool.and_eq_false_iff, bne_eq_false_iff_eq, Bool.not_eq_false'] at h
  rcases h with h | h
  · subst h
    have h1 : jsIncludes (jsToLower p.title) (jsToLower "") = true := by
      rw [jsIncludes]
      exact decide_eq_true (List.nil_infix)
    simp [h1]
  · exact h

theorem minPriceFails_elim (f : ProductFilters) (p : Product)
    (h : minPriceFails f p = false) (m : ℚ) (hm : f.minPrice = some m) :
    m ≤ p.price := by
  rw [minPriceFails, hm] at h
  simpa using h

theorem maxPriceFails_elim (f : ProductFilters) (p : Product)
    (h : maxPriceFails f p = false) (m : ℚ) (hm : f.maxPrice = some m) :
    p.price ≤ m := by
  rw [maxPriceFails, hm] at h
  simpa using h

theorem filterPred_parts (f : ProductFilters) (p : Product)
    (h : filterPred f p = true) :
    categoryFails f p = false ∧ searchFails f p = false ∧
      minPriceFails f p = false ∧ maxPriceFails f p = false := by
  rw [filterPred] at h
  simp only [Bool.and_eq_true, Bool.not_eq_true'] at h
  exact ⟨h.1.1.1, h.1.1.2, h.1.2, h.2⟩

/-- The consistency properties ECMA-402 guarantees for
`String.prototype.localeCompare`: the sign is antisymmetric and the induced
weak order is transitive. -/
def LcmpConsistent (lcmp : String → String → ℤ) : Prop :=
  (∀ a b, 0 ≤ lcmp a b ↔ lcmp b a ≤ 0) ∧
    (∀ a b c, lcmp a b ≤ 0 → lcmp b c ≤ 0 → lcmp a c ≤ 0)

theorem productComparison_sign (lcmp : String → String → ℤ)
    (hl : LcmpConsistent lcmp) (field : SortField) (a b : Product) :
    0 ≤ productComparison lcmp field a b ↔ productComparison lcmp field b a ≤ 0 := by
  cases field with
  | title =>
      simp only [productComparison]
      rw [show ((0 : ℚ) ≤ (lcmp a.title b.title : ℚ)) ↔ 0 ≤ lcmp a.title b.title by
        exact_mod_cast Iff.rfl]
      rw [show (((lcmp b.title a.title : ℤ) : ℚ) ≤ 0) ↔ lcmp b.title a.title ≤ 0 by
        exact_mod_cast Iff.rfl]
      exact hl.1 a.title b.title
  | price =>
      simp only [productComparison, sub_nonneg, sub_nonpos]
  | rating =>
      simp only [productComparison, sub_nonneg, sub_nonpos]

theorem productComparison_trans (lcmp : String → String → ℤ)
    (hl : LcmpConsistent lcmp) (field : SortField) (a b c : Product)
    (hab : productComparison lcmp field a b ≤ 0)
    (hbc : productComparison lcmp field b c ≤ 0) :
    productComparison lcmp field a c ≤ 0 := by
  cases field with
  | title =>
      simp only [productComparison] at hab hbc ⊢
      have hab' : lcmp a.title b.title ≤ 0 := by exact_mod_cast hab
      have hbc' : lcmp b.title c.title ≤ 0 := by exact_mod_cast hbc
      exact_mod_cast hl.2 a.title b.title c.title hab' hbc'
  | price =>
      simp only [productComparison, sub_nonpos] at hab hbc ⊢
      exact hab.trans hbc
  | rating =>
      simp only [productComparison, sub_nonpos] at hab hbc ⊢
      exact hab.trans hbc

theorem sortComparator_trans (lcmp : String → String → ℤ)
    (hl : LcmpConsistent lcmp) (s : ProductSort) (a b c : Product)
    (hab : sortComparator lcmp s a b ≤ 0) (hbc : sortComparator lcmp s b c ≤ 0) :
    sortComparator lcmp s a c ≤ 0 := by
  cases s with
  | mk field order =>
      cases order with
      | asc =>
          simp only [sortComparator] at hab hbc ⊢
          exact productComparison_trans lcmp hl field a b c hab hbc
      | desc =>
          simp only [sortComparator, neg_nonpos] at hab hbc ⊢
          have hba : productComparison lcmp field b a ≤ 0 :=
            (productComparison_sign lcmp hl field a b).mp hab
          have hcb : productComparison lcmp field c b ≤ 0 :=
            (productComparison_sign lcmp hl field b c).mp hbc
          exact (productComparison_sign lcmp hl field a c).mpr
            (productComparison_trans lcmp hl field c b a hcb hba)

theorem sortComparator_total (lcmp : String → String → ℤ)
    (hl : LcmpConsistent lcmp) (s : ProductSort) (a b : Product) :
    sortComparator lcmp s a b ≤ 0 ∨ sortComparator lcmp s b a ≤ 0 := by
  cases s with
  | mk field order =>
      cases order with
      | asc =>
          simp only [sortComparator]
          rcases le_or_lt (productComparison lcmp field a b) 0 with h | h
          · exact Or.inl h
          · exact Or.inr ((productComparison_sign lcmp hl field a b).mp h.le)
      | desc =>
          simp only [sortComparator, neg_nonpos]
          rcases le_or_lt (productComparison lcmp field a b) 0 with h | h
          · exact Or.inr ((productComparison_sign lcmp hl field b a).mpr h)
          · exact Or.inl h.le

theorem sortLe_trans (lcmp : String → String → ℤ) (hl : LcmpConsistent lcmp)
    (s : ProductSort) :
    ∀ a b c : Product, decide (sortComparator lcmp s a b ≤ 0) →
      decide (sortComparator lcmp s b c ≤ 0) →
      decide (sortComparator lcmp s a c ≤ 0) := by
  intro a b c hab hbc
  exact decide_eq_true (sortComparator_trans lcmp hl s a b c
    (of_decide_eq_true hab) (of_decide_eq_true hbc))

theorem sortLe_total (lcmp : String → String → ℤ) (hl : LcmpConsistent lcmp)
    (s : ProductSort) :
    ∀ a b : Product, decide (sortComparator lcmp s a b ≤ 0) ||
      decide (sortComparator lcmp s b a ≤ 0) := by
  intro a b
  rcases sortComparator_total lcmp hl s a b with h | h
  · simp [decide_eq_true h]
  · simp [decide_eq_true h]

theorem hookStageCategory (l : List Product) (f : ProductFilters) :
    (match f.category with
      | some c => if c != "" then l.filter (fun p => p.category == c) else l
      | none => l) = l.filter (fun p => !categoryFails f p) := by
  rcases hc : f.category with _ | c
  · simp [categoryFails, hc, List.filter_true]
  · by_cases hce : c = ""
    · subst hce
      simp [categoryFails, hc, List.filter_true]
    · have hne : (c != "") = true := by simp [hce]
      simp only [categoryFails, hc, hne, if_pos, Bool.true_and]
      apply List.filter_congr
      intro p _
      simp [bne]

theorem hookStageSearch (l : List Product) (f : ProductFilters) :
    (match f.search with
      | some s =>
          if s != "" then
            l.filter (fun p =>
              jsIncludes (jsToLower p.title) (jsToLower s) ||
                jsIncludes (jsToLower p.description) (jsToLower s))
          else l
      | none => l) = l.filter (fun p => !searchFails f p) := by
  rcases hs : f.search with _ | s
  · simp [searchFails, hs, List.filter_true]
  · by_cases hse : s = ""
    · subst hse
      simp [searchFails, hs, List.filter_true]
    · have hne : (s != "") = true := by simp [hse]
      simp only [searchFails, hs, hne, if_pos, Bool.true_and]
      apply List.filter_congr
      intro p _
      simp [bne]

theorem hookStageMin (l : List Product) (f : ProductFilters) :
    (match f.minPrice with
      | some m => l.filter (fun p => decide (m ≤ p.price))
      | none => l) = l.filter (fun p => !minPriceFails f p) := by
  rcases hm : f.minPrice with _ | m
  · simp [minPriceFails, hm, List.filter_true]
  · simp only [minPriceFails, hm]
    apply List.filter_congr
    intro p _
    simp [← decide_not, not_lt]

theorem hookStageMax (l : List Product) (f : ProductFilters) :
    (match f.maxPrice with
      | some m => l.filter (fun p => decide (p.price ≤ m))
      | none => l) = l.filter (fun p => !maxPriceFails f p) := by
  rcases hm : f.maxPrice with _ | m
  · simp [maxPriceFails, hm, List.filter_true]
  · simp only [maxPriceFails, hm]
    apply List.filter_congr
    intro p _
    simp [← decide_not, not_lt]

/-- The hook's four successive conditional filters compute exactly
`ProductService.applyFilters`. -/
theorem hookFilterChain_eq (l : List Product) (f : ProductFilters) :
    hookFilterChain l f = applyFilters l f := by
  rw [hookFilterChain]
  rw [hookStageCategory l f]
  rw [hookStageSearch (l.filter (fun p => !categoryFails f p)) f]
  rw [hookStageMin ((l.filter (fun p => !categoryFails f p)).filter
    (fun p => !searchFails f p)) f]
  rw [hookStageMax (((l.filter (fun p => !categoryFails f p)).filter
    (fun p => !searchFails f p)).filter (fun p => !minPriceFails f p)) f]
  rw [List.filter_filter, List.filter_filter, List.filter_filter, applyFilters]
  apply List.filter_congr
  intro p _
  rw [filterPred]
  cases categoryFails f p <;> cases searchFails f p <;>
    cases minPriceFails f p <;> cases maxPriceFails f p <;> rfl

/-- When no filter field is active (in the hook's sense), the service-side
filter is the identity. -/
theorem applyFilters_of_inactive (l : List Product) (f : ProductFilters)
    (h : hookActiveFilters f = false) : applyFilters l f = l := by
  rw [hookActiveFilters] at h
  simp only [Bool.or_eq_false_iff] at h
  obtain ⟨⟨⟨hc, hs⟩, hmn⟩, hmx⟩ := h
  rw [applyFilters]
  apply List.filter_eq_self.mpr
  intro p _
  rw [filterPred]
  have h1 : categoryFails f p = false := by
    rcases hoc : f.category with _ | c
    · simp [categoryFails, hoc]
    · rw [hoc] at hc
      rw [strTruthy] at hc
      simp [categoryFails, hoc, hc]
  have h2 : searchFails f p = false := by
    rcases hos : f.search with _ | s
    · simp [searchFails, hos]
    · rw [hos] at hs
      rw [strTruthy] at hs
      simp [searchFails, hos, hs]
  have h3 : minPriceFails f p = false := by
    rcases hom : f.minPrice with _ | m
    · simp [minPriceFails, hom]
    · rw [hom] at hmn
      simp at hmn
  have h4 : maxPriceFails f p = false := by
    rcases hom : f.maxPrice with _ | m
    · simp [maxPriceFails, hom]
    · rw [hom] at hmx
      simp at hmx
  rw [h1, h2, h3, h4]
  rfl

/-- Contradictory price bounds empty the filter. -/
theorem applyFilters_eq_nil_of_minmax (l : List Product) (f : ProductFilters)
    (mn mx : ℚ) (hmn : f.minPrice = some mn) (hmx : f.maxPrice = some mx)
    (hlt : mx < mn) : applyFilters l f = [] := by
  rw [applyFilters, List.filter_eq_nil_iff]
  intro p _ hp
  obtain ⟨_, _, h3, h4⟩ := filterPred_parts f p hp
  have hle1 := minPriceFails_elim f p h3 mn hmn
  have hle2 := maxPriceFails_elim f p h4 mx hmx
  linarith

theorem count_le_ceil_mul (count : ℕ) (limit : ℤ) (hl : 1 ≤ limit) :
    (count : ℤ) ≤ ⌈(count : ℚ) / (limit : ℚ)⌉ * limit := by
  have hlq : (0 : ℚ) < (limit : ℚ) := by exact_mod_cast hl
  have h := Int.le_ceil ((count : ℚ) / (limit : ℚ))
  rw [div_le_iff₀ hlq] at h
  exact_mod_cast h

theorem ceil_div_nonneg (count : ℕ) (limit : ℤ) (hl : 1 ≤ limit) :
    0 ≤ ⌈(count : ℚ) / (limit : ℚ)⌉ := by
  have hlq : (0 : ℚ) < (limit : ℚ) := by exact_mod_cast hl
  exact Int.ceil_nonneg (div_nonneg (Nat.cast_nonneg count) hlq.le)

theorem applyPagination_data (l : List Product) (pg : Pagination) :
    (applyPagination l pg).data =
      jsSlice l ((pg.page - 1) * pg.limit) ((pg.page - 1) * pg.limit + pg.limit) :=
  rfl

theorem applyPagination_totalPages (l : List Product) (pg : Pagination) :
    (applyPagination l pg).totalPages = ⌈(l.length : ℚ) / (pg.limit : ℚ)⌉ :=
  rfl

theorem applyPagination_page (l : List Product) (pg : Pagination) :
    (applyPagination l pg).page = pg.page :=
  rfl

theorem applyPagination_limit (l : List Product) (pg : Pagination) :
    (applyPagination l pg).limit = pg.limit :=
  rfl

theorem optSort_nil (lcmp : String → String → ℤ) (so : Option ProductSort) :
    optSort lcmp [] so = [] := by
  cases so with
  | none => rfl
  | some s => exact List.mergeSort_nil

/-! ## Claims -/

/-- C2: the operation `getProducts` on a successful fetch is exactly the composition
paginate ∘ sort ∘ filter, with the filter applied to the full dataset, the
sort to the filtered sequence, and the pagination window to the
filtered-and-sorted sequence. -/
theorem spec_c2_pipeline_order (lcmp : String → String → ℤ) (D : List Product)
    (F : ProductFilters) (S : ProductSort) (P : Pagination) :
    getProducts lcmp (.success D) (some F) (some S) (some P) =
      .success (applyPagination (applySort lcmp (applyFilters D F) S) P) :=
  rfl

/-- C1 (amended): the pipeline always succeeds on a fetched dataset; every
element of the returned page belongs to the dataset and satisfies every
supplied constraint — category equality **when the category filter is present
and non-empty** (the code treats an empty-string category as absent), the
case-insensitive title-or-description search containment, and both inclusive
price bounds; with no filter field supplied the filter step is the identity;
and contradictory price bounds yield an empty success. -/
theorem spec_c1_amended (lcmp : String → String → ℤ) (D : List Product)
    (F : ProductFilters) (so : Option ProductSort) (po : Option Pagination) :
    getProducts lcmp (.success D) (some F) so po =
      .success (queryResult lcmp D (some F) so po)
    ∧ (∀ p ∈ (queryResult lcmp D (some F) so po).data,
        p ∈ D
        ∧ (∀ c, F.category = some c → c ≠ "" → p.category = c)
        ∧ (∀ s, F.search = some s →
            (jsIncludes (jsToLower p.title) (jsToLower s) ||
              jsIncludes (jsToLower p.description) (jsToLower s)) = true)
        ∧ (∀ m, F.minPrice = some m → m ≤ p.price)
        ∧ (∀ m, F.maxPrice = some m → p.price ≤ m))
    ∧ (F.category = none → F.search = none → F.minPrice = none → F.maxPrice = none →
        applyFilters D F = D)
    ∧ (∀ mn mx, F.minPrice = some mn → F.maxPrice = some mx → mx < mn →
        (queryResult lcmp D (some F) so po).data = []) := by
  refine ⟨rfl, ?_, ?_, ?_⟩
  · intro p hp
    have hmem : p ∈ optFilter D (some F) :=
      mem_queryResult_data lcmp D (some F) so po p hp
    have hD : p ∈ D := mem_optFilter D (some F) p hmem
    obtain ⟨h1, h2, h3, h4⟩ :=
      filterPred_parts F p (filterPred_of_mem_optFilter D F p hmem)
    exact ⟨hD,
      fun c hc hne => categoryFails_elim F p h1 c hc hne,
      fun s hs => searchFails_elim F p h2 s hs,
      fun m hm => minPriceFails_elim F p h3 m hm,
      fun m hm => maxPriceFails_elim F p h4 m hm⟩
  · intro hc hs hmn hmx
    apply applyFilters_of_inactive
    rw [hookActiveFilters, hc, hs, hmn, hmx]
    rfl
  · intro mn mx hmn hmx hlt
    have hnil : optFilter D (some F) = [] :=
      applyFilters_eq_nil_of_minmax D F mn mx hmn hmx hlt
    rw [queryResult, hnil, optSort_nil, applyPagination_data]
    simp [jsSlice]

/-- C3: for a valid page spec the reported total-page-count is the ceiling of
the filtered (not full) match count divided by the page size, it is `0` when
nothing matches, and requesting page `totalPages + 1` yields an empty data
sequence — still a success — with the same total-page-count and the echoed
page number and size. -/
theorem spec_c3_totalPages (lcmp : String → String → ℤ) (D : List Product)
    (F : ProductFilters) (so : Option ProductSort) (page limit : ℤ)
    (_hpage : 1 ≤ page) (hlimit : 1 ≤ limit) :
    (queryResult lcmp D (some F) so (some { page := page, limit := limit })).totalPages =
      ⌈((applyFilters D F).length : ℚ) / (limit : ℚ)⌉
    ∧ ((applyFilters D F).length = 0 →
        (queryResult lcmp D (some F) so
          (some { page := page, limit := limit })).totalPages = 0)
    ∧ (queryResult lcmp D (some F) so
        (some { page := ⌈((applyFilters D F).length : ℚ) / (limit : ℚ)⌉ + 1,
                limit := limit })).data = []
    ∧ (queryResult lcmp D (some F) so
        (some { page := ⌈((applyFilters D F).length : ℚ) / (limit : ℚ)⌉ + 1,
                limit := limit })).totalPages =
      ⌈((applyFilters D F).length : ℚ) / (limit : ℚ)⌉
    ∧ (queryResult lcmp D (some F) so
        (some { page := ⌈((applyFilters D F).length : ℚ) / (limit : ℚ)⌉ + 1,
                limit := limit })).page =
      ⌈((applyFilters D F).length : ℚ) / (limit : ℚ)⌉ + 1
    ∧ (queryResult lcmp D (some F) so
        (some { page := ⌈((applyFilters D F).length : ℚ) / (limit : ℚ)⌉ + 1,
                limit := limit })).limit = limit := by
  have hlen : (optSort lcmp (optFilter D (some F)) so).length =
      (applyFilters D F).length :=
    optSort_length lcmp (optFilter D (some F)) so
  have htp : ∀ pg : ℤ,
      (queryResult lcmp D (some F) so (some { page := pg, limit := limit })).totalPages =
        ⌈((applyFilters D F).length : ℚ) / (limit : ℚ)⌉ := by
    intro pg
    rw [queryResult, Option.getD_some, applyPagination_totalPages, hlen]
  refine ⟨htp page, ?_, ?_, htp _, ?_, ?_⟩
  · intro h0
    rw [htp page, h0]
    simp
  · rw [queryResult, Option.getD_some, applyPagination_data]
    have h1 : (0 : ℤ) ≤ ⌈((applyFilters D F).length : ℚ) / (limit : ℚ)⌉ :=
      ceil_div_nonneg _ limit hlimit
    have h2 : (⌈((applyFilters D F).length : ℚ) / (limit : ℚ)⌉ + 1 - 1) =
        ⌈((applyFilters D F).length : ℚ) / (limit : ℚ)⌉ := by ring
    apply jsSlice_eq_nil_of_le
    · show (0 : ℤ) ≤ (⌈((applyFilters D F).length : ℚ) / (limit : ℚ)⌉ + 1 - 1) * limit
      rw [h2]
      exact mul_nonneg h1 (by omega)
    · show ((optSort lcmp (optFilter D (some F)) so).length : ℤ) ≤
        (⌈((applyFilters D F).length : ℚ) / (limit : ℚ)⌉ + 1 - 1) * limit
      rw [hlen, h2]
      exact count_le_ceil_mul _ limit hlimit
  · rw [queryResult, Option.getD_some, applyPagination_page]
  · rw [queryResult, Option.getD_some, applyPagination_limit]

/-- C4: for every consistent `localeCompare` the sort step returns a
permutation of its input that is totally ordered by the selected comparator
(title by the locale comparison, price and `rating.rate` numerically, the
descending direction flipping the sign), and any two elements whose
comparator value is zero keep their relative input order (stability). -/
theorem spec_c4_sort_stable (lcmp : String → String → ℤ)
    (hl : LcmpConsistent lcmp) (s : ProductSort) (l : List Product) :
    (applySort lcmp l s).Perm l
    ∧ (applySort lcmp l s).Pairwise (fun a b => sortComparator lcmp s a b ≤ 0)
    ∧ (∀ a b : Product, sortComparator lcmp s a b = 0 →
        List.Sublist [a, b] l → List.Sublist [a, b] (applySort lcmp l s)) := by
  refine ⟨List.mergeSort_perm l _, ?_, ?_⟩
  · have hs := List.sorted_mergeSort
      (sortLe_trans lcmp hl s) (sortLe_total lcmp hl s) l
    exact hs.imp (fun h => of_decide_eq_true h)
  · intro a b hab hsub
    exact List.pair_sublist_mergeSort (sortLe_trans lcmp hl s)
      (sortLe_total lcmp hl s) (decide_eq_true (le_of_eq hab)) hsub

/-- C6: the in-browser hook computes exactly the Catalog Query Service's
result — its visible page equals the `data` field of `getProducts` for the
same dataset, filter, sort and page spec, and its `totalPages` equals the
service's (both derived from the filtered count). -/
theorem spec_c6_hook_equivalence (lcmp : String → String → ℤ) (D : List Product)
    (F : ProductFilters) (S : ProductSort) (pg : Pagination) :
    hookFilteredProducts lcmp D F S pg =
      (queryResult lcmp D (some F) (some S) (some pg)).data
    ∧ hookTotalPages D F pg =
      (queryResult lcmp D (some F) (some S) (some pg)).totalPages := by
  constructor
  · rw [hookFilteredProducts, hookFilterChain_eq]
    rw [queryResult, Option.getD_some, applyPagination_data]
    rfl
  · rw [hookTotalPages, queryResult, Option.getD_some, applyPagination_totalPages,
      optSort_length]
    by_cases h : hookActiveFilters F
    · rw [if_pos h, hookFilterChain_eq]
      rfl
    · rw [if_neg h]
      have h' : hookActiveFilters F = false := by
        rwa [Bool.not_eq_true] at h
      show ⌈(D.length : ℚ) / (pg.limit : ℚ)⌉ =
        ⌈((applyFilters D F).length : ℚ) / (pg.limit : ℚ)⌉
      rw [applyFilters_of_inactive D F h']

/-- C5: fetching a product by an identifier absent from the catalog fails
with the `NOT_FOUND` tag, produced by translating the absent
`Array.prototype.find` result (in the catalog-backed repository of the test
suite); the HTTP client itself can only ever produce `HTTP_ERROR` or
`FETCH_ERROR`, so the tag is not a forwarded transport status. -/
theorem spec_c5_not_found (catalog : List Product) (id : ℤ)
    (habsent : ∀ p ∈ catalog, p.id ≠ id) :
    getProductById (mockFindById catalog) id =
      .failure { message := "Product not found", code := some "NOT_FOUND" }
    ∧ (∀ (resp : Except String (HttpResponse Product)) (e : ApiError),
        fetchGet resp = .failure e →
        e.code = some "HTTP_ERROR" ∨ e.code = some "FETCH_ERROR") := by
  constructor
  · rw [getProductById, mockFindById]
    have hnone : catalog.find? (fun p => p.id == id) = none := by
      rw [List.find?_eq_none]
      intro p hp
      simpa using habsent p hp
    rw [hnone]
  · intro resp e h
    cases resp with
    | error msg =>
        rw [fetchGet] at h
        injection h with h'
        rw [← h']
        right
        rfl
    | ok r =>
        rw [fetchGet] at h
        by_cases hok : r.ok
        · rw [if_pos hok] at h
          cases hb : r.body with
          | some v => rw [hb] at h; exact absurd h (by simp)
          | none =>
              rw [hb] at h
              injection h with h'
              rw [← h']
              right
              rfl
        · rw [if_neg hok] at h
          injection h with h'
          rw [← h']
          left
          rfl

/-- C7: the search-products operation rejects an empty or all-whitespace
query with the `INVALID_QUERY` tag, for every repository outcome — the result
does not depend on the fetched data, so no data is consulted. -/
theorem spec_c7_blank_search (findAllResult : Result (List Product)) (q : String)
    (hq : jsTrim q = "") :
    searchProducts findAllResult q =
      .failure { message := "Search query cannot be empty",
                 code := some "INVALID_QUERY" } := by
  have hg : (q == "" || jsTrim q == "") = true := by
    rw [hq]
    simp
  rw [searchProducts.eq_def, hg]
  rfl

/-- C8: the repository operation `findById` rejects a non-positive identifier with the `INVALID_ID`
tag before any network call — the outcome is the same for every HTTP client,
so the client is never consulted. -/
theorem spec_c8_invalid_id (httpGet httpGet2 : String → Result Product)
    (id : ℤ) (h : id ≤ 0) :
    repoFindById httpGet id =
      .failure { message := "Invalid product ID", code := some "INVALID_ID" }
    ∧ repoFindById httpGet id = repoFindById httpGet2 id := by
  constructor
  · rw [repoFindById, if_pos h]
  · rw [repoFindById, if_pos h, repoFindById, if_pos h]

/-- C9: calling `getProducts` without a pagination argument defaults to page 1 with
limit 20, so its page is the first 20 elements of the filtered-and-sorted
sequence (hence at most 20 long); consequently the products page, which calls
`getProducts()` with no arguments, hands the client at most 20 products as
the initial dataset. -/
theorem spec_c9_default_pagination (lcmp : String → String → ℤ)
    (D : List Product) (fo : Option ProductFilters) (so : Option ProductSort) :
    getProducts lcmp (.success D) fo so none =
      getProducts lcmp (.success D) fo so (some { page := 1, limit := 20 })
    ∧ (queryResult lcmp D fo so none).data =
        (optSort lcmp (optFilter D fo) so).take 20
    ∧ (queryResult lcmp D fo so none).data.length ≤ 20
    ∧ productsContentInitialProducts lcmp (.success D) =
        .success ((queryResult lcmp D none none none).data)
    ∧ (queryResult lcmp D none none none).data.length ≤ 20 := by
  have hdata : ∀ (fo' : Option ProductFilters) (so' : Option ProductSort),
      (queryResult lcmp D fo' so' none).data =
        (optSort lcmp (optFilter D fo') so').take 20 := by
    intro fo' so'
    rw [queryResult, applyPagination_data]
    show jsSlice (optSort lcmp (optFilter D fo') so') (((1 : ℤ) - 1) * 20)
      (((1 : ℤ) - 1) * 20 + 20) = _
    norm_num
    rw [jsSlice_nonneg_take _ 20 (by norm_num)]
    rfl
  refine ⟨rfl, hdata fo so, ?_, rfl, ?_⟩
  · rw [hdata fo so]
    exact List.length_take_le 20 _
  · rw [hdata none none]
    exact List.length_take_le 20 _

/-- C10: on a non-blank query, `searchProducts` returns exactly the products
whose lowercased title, description **or category** contains the lowercased
trimmed query — one field more than the pipeline's search filter, as the
concrete category-only match demonstrates against `applyFilters`. -/
theorem spec_c10_search_fields (D : List Product) (q : String)
    (hq : jsTrim q ≠ "") :
    searchProducts (.success D) q =
      .success (D.filter (searchPred (jsTrim (jsToLower q))))
    ∧ (∀ p ∈ D, jsIncludes (jsToLower p.category) (jsTrim (jsToLower q)) = true →
        p ∈ D.filter (searchPred (jsTrim (jsToLower q))))
    ∧ searchProducts (.success [cexProduct]) "gadget" = .success [cexProduct]
    ∧ applyFilters [cexProduct] { search := some "gadget" } = [] := by
  refine ⟨?_, ?_, by decide, by decide⟩
  · have hq0 : q ≠ "" := by
      intro h
      apply hq
      rw [h]
      rfl
    have hcond : ¬((q == "" || jsTrim q == "") = true) := by simp [hq0, hq]
    rw [searchProducts, if_neg hcond]
  · intro p hp hcat
    apply List.mem_filter.mpr
    refine ⟨hp, ?_⟩
    rw [searchPred, hcat]
    simp

/-- Counterexample to C1 as frozen: the category filter `some ""` is a
present constraint, yet the returned page contains a product whose category
is `"gadgets"`, not `""` — the code treats an empty-string category as
absent. -/
theorem spec_c1_counterexample :
    cexFilter.category = some ""
    ∧ (queryResult lcmpZero [cexProduct] (some cexFilter) none none).data =
        [cexProduct]
    ∧ cexProduct.category ≠ "" :=
  ⟨rfl, by decide, by decide⟩

/-- Witness for C1 (amended) at a concrete dataset and category filter. -/
theorem spec_c1_amended_witness :
    specTShirt ∈ specDataset
    ∧ (∀ c, cexFilterClothing.category = some c → c ≠ "" → specTShirt.category = c)
    ∧ (∀ s, cexFilterClothing.search = some s →
        (jsIncludes (jsToLower specTShirt.title) (jsToLower s) ||
          jsIncludes (jsToLower specTShirt.description) (jsToLower s)) = true)
    ∧ (∀ m, cexFilterClothing.minPrice = some m → m ≤ specTShirt.price)
    ∧ (∀ m, cexFilterClothing.maxPrice = some m → specTShirt.price ≤ m) :=
  (spec_c1_amended lcmpZero specDataset cexFilterClothing none none).2.1
    specTShirt (by decide)

/-- Witness for C3 at the concrete clothing filter with page size 2. -/
theorem spec_c3_witness :
    (queryResult lcmpZero specDataset (some cexFilterClothing) none
        (some { page := 1, limit := 2 })).totalPages =
      ⌈((applyFilters specDataset cexFilterClothing).length : ℚ) / (((2 : ℤ)) : ℚ)⌉ :=
  (spec_c3_totalPages lcmpZero specDataset cexFilterClothing none 1 2 (by decide)
    (by decide)).1

/-- Witness for C4 at the all-equal comparator on the concrete dataset. -/
theorem spec_c4_witness :
    (applySort lcmpZero specDataset { field := .title, order := .asc }).Perm
      specDataset :=
  (spec_c4_sort_stable lcmpZero ⟨fun _ _ => Iff.rfl, fun _ _ _ h _ => h⟩
    { field := .title, order := .asc } specDataset).1

/-- Witness for C5 at an identifier absent from the concrete catalog. -/
theorem spec_c5_witness :
    getProductById (mockFindById specDataset) 999 =
      .failure { message := "Product not found", code := some "NOT_FOUND" } :=
  (spec_c5_not_found specDataset 999 (by decide)).1

/-- Witness for C7 at an all-whitespace query. -/
theorem spec_c7_witness :
    searchProducts (.success specDataset) "   " =
      .failure { message := "Search query cannot be empty",
                 code := some "INVALID_QUERY" } :=
  spec_c7_blank_search (.success specDataset) "   " (by decide)

/-- Witness for C8 at id 0 with two distinct HTTP clients. -/
theorem spec_c8_witness :
    repoFindById (fun _ => .failure { message := "client A" }) 0 =
      .failure { message := "Invalid product ID", code := some "INVALID_ID" }
    ∧ repoFindById (fun _ => .failure { message := "client A" }) 0 =
      repoFindById (fun _ => .failure { message := "client B" }) 0 :=
  spec_c8_invalid_id (fun _ => .failure { message := "client A" })
    (fun _ => .failure { message := "client B" }) 0 (by decide)

/-- Witness for C10 at the category-only match. -/
theorem spec_c10_witness :
    searchProducts (.success [cexProduct]) "gadget" =
      .success ([cexProduct].filter (searchPred (jsTrim (jsToLower "gadget")))) :=
  (spec_c10_search_fields [cexProduct] "gadget" (by decide)).1
